import Mathlib

/-
Verification of the multiplayer relay server (src/multiplayer-server.js).

The server is embedded shallowly: the registry `games` becomes a function
map from game id strings to sessions, the per-connection field `_chessRole`
becomes a map from connection ids to optional role bindings, and the
transport writability check `ws.readyState === ws.OPEN` becomes a liveness
flag per connection.  The external rules engine (chess.js) is opaque to the
server, so it is a parameter: a structure of pure functions, with in-place
mutation of the chess object rendered as explicit state replacement.  The
random draws of Math.random inside generateGameId and the Date.now clock
are oracle inputs carried by events.
-/

/-- A connection handle; the JS WebSocket object identity. -/
def Conn := Nat

instance : DecidableEq Conn := instDecidableEqNat

instance : OfNat Conn n := ⟨(n : Nat)⟩

instance : Repr Conn := instReprNat

/-- A seat color, the two values of the players record. -/
inductive Color where
  | w
  | b
deriving DecidableEq, Repr, Fintype

/-- The opposite seat, as computed in joinGame (oppColor). -/
def oppositeColor : Color → Color
  | Color.w => Color.b
  | Color.b => Color.w

/-- The _chessRole record attached to a connection. -/
structure Role where
  gameId : String
  color : Color
deriving DecidableEq, Repr

/-- The players record of a session: one optional handle per seat. -/
structure Players where
  w : Option Conn
  b : Option Conn
deriving DecidableEq, Repr

/-- One stored game session. -/
structure Game (σ : Type) where
  chess : σ
  players : Players
  createdAt : Nat
deriving DecidableEq, Repr

/-- Read the seat slot named by a color (game.players[color]). -/
def slotGet (pl : Players) : Color → Option Conn
  | Color.w => pl.w
  | Color.b => pl.b

/-- Write the seat slot named by a color. -/
def slotSet (pl : Players) : Color → Option Conn → Players
  | Color.w, v => { pl with w := v }
  | Color.b, v => { pl with b := v }

/-- The move object handed to chess.move: from, to, and the resolved
promotion string. -/
structure MoveCmd where
  fromSq : Option String
  toSq : Option String
  promo : String
deriving DecidableEq, Repr

/-- The external rules engine (chess.js), opaque to the server: state
type sigma, a fresh-game state, and the queries the server performs.
chess.move may throw (Except.error), return null (Except.ok none), or
return a move record with the successor state; the record is carried
opaquely as a string. -/
structure Engine (σ : Type) where
  start : σ
  fen : σ → String
  turn : σ → Color
  move : σ → MoveCmd → Except Unit (Option (String × σ))
  isGameOver : σ → Bool
  isCheckmate : σ → Bool
  isDraw : σ → Bool

/-- The whole server state: the games registry, the _chessRole binding
of each connection, and the writability of each connection.  The crashed
flag records that the process exited through an uncaught exception: the
message listener wraps only JSON.parse in try/catch, so the TypeError
thrown by destructuring a null message escapes and kills the process.
Once crashed, no further event is processed; the other fields then only
recall the last in-memory state. -/
structure SState (σ : Type) where
  games : String → Option (Game σ)
  roles : Conn → Option Role
  live : Conn → Bool
  crashed : Bool

/-- Map.set: replace or add the entry for a key. -/
def setG {σ : Type} (m : String → Option (Game σ)) (k : String) (v : Game σ) :
    String → Option (Game σ) :=
  fun k2 => if k2 = k then some v else m k2

/-- Map.delete: drop the entry for a key. -/
def delG {σ : Type} (m : String → Option (Game σ)) (k : String) :
    String → Option (Game σ) :=
  fun k2 => if k2 = k then none else m k2

/-- Update the role binding of one connection. -/
def setRole (r : Conn → Option Role) (c : Conn) (v : Option Role) :
    Conn → Option Role :=
  fun c2 => if c2 = c then v else r c2

/-- An outbound effect.  The source only ever sends; a close effect is
included so that never closing a connection is expressible. -/
inductive OutMsg where
  | connected (message : String)
  | game_created (gameId : String) (color : Color) (fen : String)
  | game_joined (gameId : String) (color : Color) (fen : String)
  | opponent_joined (gameId : String) (opponentColor : Color)
  | move_made (gameId : String) (fen : String) (lastMove : String)
      (turn : Color) (isGameOver isCheckmate isDraw : Bool)
  | error (message : String)
deriving DecidableEq, Repr

inductive Out where
  | send (c : Conn) (m : OutMsg)
  | closeConn (c : Conn)
deriving DecidableEq, Repr

/-- safeSend: deliver only when the handle is non-null and the connection
is currently writable. -/
def safeSend {σ : Type} (s : SState σ) (ws : Option Conn) (m : OutMsg) : List Out :=
  match ws with
  | none => []
  | some c => if s.live c then [Out.send c m] else []

/-- The id alphabet of generateGameId: 32 symbols, no 0, O, 1, I. -/
def gameIdChars : List Char := "ABCDEFGHJKLMNPQRSTUVWXYZ23456789".toList

/-- generateGameId: six random draws, each an index below 32, mapped
through the alphabet. -/
def generateGameId (ds : List (Fin 32)) : String :=
  String.mk ((ds.take 6).map (fun d => gameIdChars.getD d.val 'A'))

/-- The promotion default: promotion or q, where an absent or empty
string is falsy. -/
def promoOrQ (p : Option String) : String :=
  match p with
  | none => "q"
  | some s => if s = "" then "q" else s

/-- createGame: generate an id from the six draws, build a fresh session
with the creator in the w seat and b empty, insert it (Map.set, replacing
any session already stored under that id), set the role binding of the creator,
and reply game_created to the creator. -/
def createGame {σ : Type} (E : Engine σ) (s : SState σ) (ws : Conn)
    (ds : List (Fin 32)) (now : Nat) : SState σ × List Out :=
  let gameId := generateGameId ds
  let chess := E.start
  let game : Game σ := { chess := chess, players := { w := some ws, b := none }, createdAt := now }
  let s1 : SState σ :=
    { s with
      games := setG s.games gameId game
      roles := setRole s.roles ws (some { gameId := gameId, color := Color.w }) }
  (s1, safeSend s1 (some ws) (OutMsg.game_created gameId Color.w (E.fen chess)))

/-- joinGame: look the id up; fill the b seat if empty, else the w seat if
empty, else reply the two-players error with no mutation; on success set
the binding of the joiner, reply game_joined, and notify the occupant of the
opposite seat when present. -/
def joinGame {σ : Type} (E : Engine σ) (s : SState σ) (ws : Conn)
    (gameId : String) : SState σ × List Out :=
  match s.games gameId with
  | none => (s, safeSend s (some ws) (OutMsg.error "Game not found"))
  | some game =>
    let assigned : Option (Color × Game σ) :=
      if game.players.b = none then
        some (Color.b, { game with players := { game.players with b := some ws } })
      else if game.players.w = none then
        some (Color.w, { game with players := { game.players with w := some ws } })
      else
        none
    match assigned with
    | none => (s, safeSend s (some ws) (OutMsg.error "Game already has two players"))
    | some (color, game2) =>
      let s1 : SState σ :=
        { s with
          games := setG s.games gameId game2
          roles := setRole s.roles ws (some { gameId := gameId, color := color }) }
      let out1 := safeSend s1 (some ws) (OutMsg.game_joined gameId color (E.fen game.chess))
      let opp := slotGet game2.players (oppositeColor color)
      let out2 := safeSend s1 opp (OutMsg.opponent_joined gameId color)
      (s1, out1 ++ out2)

/-- The tail of handleMove once the participant check has passed: turn
enforcement, engine delegation, and on acceptance the stored state update
and the broadcast of one identical move_made payload to both seat slots
through the safeSend guard. -/
def moveTurnPhase {σ : Type} (E : Engine σ) (s : SState σ) (ws : Conn)
    (gameId : String) (game : Game σ) (color : Color)
    (fromSq toSq promo : Option String) : SState σ × List Out :=
  let turnColor := E.turn game.chess
  if color = turnColor then
    match E.move game.chess { fromSq := fromSq, toSq := toSq, promo := promoOrQ promo } with
    | Except.error _ => (s, safeSend s (some ws) (OutMsg.error "Move error"))
    | Except.ok none => (s, safeSend s (some ws) (OutMsg.error "Illegal move"))
    | Except.ok (some (mv, chess2)) =>
      let payload := OutMsg.move_made gameId (E.fen chess2) mv (E.turn chess2)
        (E.isGameOver chess2) (E.isCheckmate chess2) (E.isDraw chess2)
      let s1 : SState σ := { s with games := setG s.games gameId { game with chess := chess2 } }
      (s1, safeSend s1 game.players.w payload ++ safeSend s1 game.players.b payload)
  else
    (s, safeSend s (some ws) (OutMsg.error "Not your turn"))

/-- handleMove: registry lookup (a missing gameId field fails the lookup),
participant check against the role binding of the connection only, then the
turn phase. -/
def handleMove {σ : Type} (E : Engine σ) (s : SState σ) (ws : Conn)
    (gameId : Option String) (fromSq toSq promo : Option String) : SState σ × List Out :=
  match gameId with
  | none => (s, safeSend s (some ws) (OutMsg.error "Game not found"))
  | some gid =>
    match s.games gid with
    | none => (s, safeSend s (some ws) (OutMsg.error "Game not found"))
    | some game =>
      match s.roles ws with
      | none => (s, safeSend s (some ws) (OutMsg.error "You are not part of this game"))
      | some role =>
        if role.gameId = gid then
          moveTurnPhase E s ws gid game role.color fromSq toSq promo
        else
          (s, safeSend s (some ws) (OutMsg.error "You are not part of this game"))

/-- cleanupConnection: resolve the binding of the closing connection; if it has
none, or its session is gone, do nothing; clear its seat slot only when
the slot still holds this exact connection; delete the session when both
slots are then empty. -/
def cleanupConnection {σ : Type} (s : SState σ) (ws : Conn) : SState σ :=
  match s.roles ws with
  | none => s
  | some role =>
    match s.games role.gameId with
    | none => s
    | some game =>
      let game2 :=
        if slotGet game.players role.color = some ws then
          { game with players := slotSet game.players role.color none }
        else
          game
      if game2.players.w = none ∧ game2.players.b = none then
        { s with games := delG s.games role.gameId }
      else
        { s with games := setG s.games role.gameId game2 }

/-- One decoded inbound frame, after JSON.parse of the raw text: either
the parse threw (invalidJson), or it returned the JSON literal null
(jnull, on which the later destructuring of the type field throws), or
it returned a value whose destructuring yields a type discriminant and
the optional payload fields the three handlers read.  A frame decoding
to a non-null primitive destructures to an undefined type and takes the
same default branch as any unrecognized type string, so it is carried as
a jmsg whose ty matches none of the three recognized kinds. -/
inductive InMsg where
  | invalidJson
  | jnull
  | jmsg (ty : String) (gameId fromSq toSq promo : Option String)
deriving DecidableEq, Repr

/-- The message dispatcher.  A parse failure and an unknown type answer
an error to the sender; join_game requires a truthy gameId (absent or
empty string is falsy).  The result none renders the frame null: the
destructuring at const-type-of-msg throws outside the try/catch, so no
reply is produced and the exception escapes the listener uncaught. -/
def handleMessage {σ : Type} (E : Engine σ) (s : SState σ) (ws : Conn)
    (m : InMsg) (ds : List (Fin 32)) (now : Nat) : Option (SState σ × List Out) :=
  match m with
  | InMsg.invalidJson => some (s, safeSend s (some ws) (OutMsg.error "Invalid JSON"))
  | InMsg.jnull => none
  | InMsg.jmsg ty gameId fromSq toSq promo =>
    some (if ty = "create_game" then
      createGame E s ws ds now
    else if ty = "join_game" then
      match gameId with
      | none => (s, safeSend s (some ws) (OutMsg.error "Missing gameId"))
      | some gid =>
        if gid = "" then (s, safeSend s (some ws) (OutMsg.error "Missing gameId"))
        else joinGame E s ws gid
    else if ty = "make_move" then
      handleMove E s ws gameId fromSq toSq promo
    else
      (s, safeSend s (some ws) (OutMsg.error "Unknown message type")))

/-- One transport event: a new connection, an inbound frame from a live
connection (carrying the random draws and clock reading consumed if the
frame creates a game), or a connection close. -/
inductive Event where
  | connect (c : Conn)
  | msg (c : Conn) (m : InMsg) (ds : List (Fin 32)) (now : Nat)
  | close (c : Conn)
deriving DecidableEq, Repr

/-- The state transition of one event.  A crashed process handles
nothing further.  A connect is a fresh WebSocket object: never one that
already carries a role or is already live.  Messages arrive only from
live connections; a frame whose dispatch throws uncaught (the null
frame) produces no reply and marks the process crashed.  A close marks
the connection unwritable and runs cleanup. -/
def stepS {σ : Type} (E : Engine σ) (s : SState σ) (e : Event) : SState σ :=
  if s.crashed then s
  else
    match e with
    | Event.connect c =>
      if s.live c ∨ (s.roles c).isSome then s
      else { s with live := fun x => if x = c then true else s.live x }
    | Event.msg c m ds now =>
      if s.live c then
        match handleMessage E s c m ds now with
        | some r => r.1
        | none => { s with crashed := true }
      else s
    | Event.close c =>
      if s.live c then
        cleanupConnection { s with live := fun x => if x = c then false else s.live x } c
      else s

/-- The empty server state: no games, no bindings, no live connections,
process running. -/
def initState (σ : Type) : SState σ :=
  { games := fun _ => none, roles := fun _ => none, live := fun _ => false, crashed := false }

/-- Run a list of events, oldest first, from a given state. -/
def runFrom {σ : Type} (E : Engine σ) (s : SState σ) : List Event → SState σ
  | [] => s
  | e :: es => runFrom E (stepS E s e) es

/-- Run a list of events from the empty server state. -/
def run {σ : Type} (E : Engine σ) (es : List Event) : SState σ :=
  runFrom E (initState σ) es

/-- The registry invariant: no stored session has both seat slots empty. -/
def GoodMap {σ : Type} (m : String → Option (Game σ)) : Prop :=
  ∀ gid g, m gid = some g → (g.players.w ≠ none ∨ g.players.b ≠ none)

/-- Every effect in the list is a send rather than a connection close,
and every error message among them is addressed to the given connection. -/
def sendsOnlyErrTo (ws : Conn) (outs : List Out) : Prop :=
  ∀ o ∈ outs, (∀ c2 m2, o = Out.send c2 (OutMsg.error m2) → c2 = ws) ∧
    (∀ c2, o ≠ Out.closeConn c2)

/-- A minimal concrete engine over the unit state, used to evaluate the
theorems at concrete inputs: the move query answers a rejection for a
from-square of i, a thrown fault for e, and an accepted move otherwise. -/
def E0 : Engine Unit where
  start := ()
  fen := fun _ => "F"
  turn := fun _ => Color.w
  move := fun _ c =>
    match c.fromSq with
    | some "i" => Except.ok none
    | some "e" => Except.error ()
    | _ => Except.ok (some ("m", ()))
  isGameOver := fun _ => false
  isCheckmate := fun _ => false
  isDraw := fun _ => false

/-- Six zero draws: generateGameId maps them to AAAAAA. -/
def dsA : List (Fin 32) := [0, 0, 0, 0, 0, 0]

/-- Six one draws: generateGameId maps them to BBBBBB. -/
def dsB : List (Fin 32) := [1, 1, 1, 1, 1, 1]

/-- The create_game frame. -/
def createMsg : InMsg := InMsg.jmsg "create_game" none none none none

/-- A join_game frame for a given id. -/
def joinMsg (gid : String) : InMsg := InMsg.jmsg "join_game" (some gid) none none none

/-- Trace: connection 5 creates AAAAAA, then connection 7 connects. -/
def trC1a : List Event :=
  [Event.connect 5, Event.msg 5 createMsg dsA 0, Event.connect 7]

/-- Trace: after trC1a, connection 7 creates with the same draws, so the
generated id AAAAAA is already present at the moment of insertion. -/
def trC1 : List Event :=
  trC1a ++ [Event.msg 7 createMsg dsA 1]

/-- Trace: connection 0 creates AAAAAA. -/
def trC2a : List Event := [Event.connect 0, Event.msg 0 createMsg dsA 0]

/-- Trace: after trC2a, the same connection 0 creates again with fresh
draws, rebinding its role from AAAAAA to BBBBBB. -/
def trC2 : List Event := trC2a ++ [Event.msg 0 createMsg dsB 1]

/-- Trace: 0 creates AAAAAA, 1 joins it as b, 1 then creates BBBBBB
(rebinding its role away from AAAAAA), then both 1 and 0 close. -/
def trC3 : List Event :=
  [Event.connect 0, Event.msg 0 createMsg dsA 0,
   Event.connect 1, Event.msg 1 (joinMsg "AAAAAA") dsA 0,
   Event.msg 1 createMsg dsB 1,
   Event.close 1, Event.close 0]

/-- A session with the w seat filled by connection 1 and b empty. -/
def gHalf : Game Unit :=
  { chess := (), players := { w := some 1, b := none }, createdAt := 0 }

/-- A session with both seats filled, w by connection 2 and b by 1. -/
def gFull : Game Unit :=
  { chess := (), players := { w := some 2, b := some 1 }, createdAt := 0 }

/-- A witness state storing gHalf under G, with no bindings and all
connections writable. -/
def sHalf : SState Unit :=
  { games := fun k => if k = "G" then some gHalf else none
    roles := fun _ => none
    live := fun _ => true
    crashed := false }

/-- A witness state storing gFull under G, connection 0 bound to the b
seat of G, connection 2 bound to the w seat of H, all writable. -/
def sFull : SState Unit :=
  { games := fun k => if k = "G" then some gFull else none
    roles := fun c =>
      if c = (0 : Conn) then some { gameId := "G", color := Color.b }
      else if c = (2 : Conn) then some { gameId := "H", color := Color.w }
      else if c = (3 : Conn) then some { gameId := "G", color := Color.w }
      else none
    live := fun _ => true
    crashed := false }

theorem SState.ext2 {σ : Type} {s t : SState σ}
    (hg : s.games = t.games) (hr : s.roles = t.roles) (hl : s.live = t.live)
    (hc : s.crashed = t.crashed) : s = t := by
  cases s; cases t; simp_all

theorem setG_self {σ : Type} (m : String → Option (Game σ)) (k : String) (v : Game σ) :
    setG m k v k = some v := by
  simp [setG]

theorem setG_ne {σ : Type} (m : String → Option (Game σ)) {k k2 : String} (v : Game σ)
    (h : k2 ≠ k) : setG m k v k2 = m k2 := by
  simp [setG, h]

theorem setG_cases {σ : Type} {m : String → Option (Game σ)} {k k2 : String}
    {v g : Game σ} (h : setG m k v k2 = some g) :
    (k2 = k ∧ g = v) ∨ (k2 ≠ k ∧ m k2 = some g) := by
  by_cases hk : k2 = k
  · subst hk
    rw [setG_self] at h
    exact Or.inl ⟨rfl, (Option.some.inj h).symm⟩
  · rw [setG_ne m v hk] at h
    exact Or.inr ⟨hk, h⟩

theorem setG_setG {σ : Type} (m : String → Option (Game σ)) (k : String) (v : Game σ) :
    setG (setG m k v) k v = setG m k v := by
  funext k2
  by_cases hk : k2 = k <;> simp [setG, hk]

theorem delG_self {σ : Type} (m : String → Option (Game σ)) (k : String) :
    delG m k k = none := by
  simp [delG]

theorem setRole_self (r : Conn → Option Role) (c : Conn) (v : Option Role) :
    setRole r c v c = v := by
  simp [setRole]

theorem slotGet_slotSet_self (pl : Players) (col : Color) (v : Option Conn) :
    slotGet (slotSet pl col v) col = v := by
  cases col <;> rfl

theorem goodMap_setG {σ : Type} {m : String → Option (Game σ)} {k : String} {v : Game σ}
    (h : GoodMap m) (hv : v.players.w ≠ none ∨ v.players.b ≠ none) :
    GoodMap (setG m k v) := by
  intro gid g hg
  rcases setG_cases hg with ⟨_, rfl⟩ | ⟨_, hm⟩
  · exact hv
  · exact h gid g hm

theorem goodMap_delG {σ : Type} {m : String → Option (Game σ)} {k : String}
    (h : GoodMap m) : GoodMap (delG m k) := by
  intro gid g hg
  by_cases hk : gid = k
  · subst hk; rw [delG_self] at hg; cases hg
  · simp only [delG, if_neg hk] at hg
    exact h gid g hg

theorem goodMap_createGame {σ : Type} (E : Engine σ) (s : SState σ) (ws : Conn)
    (ds : List (Fin 32)) (now : Nat) (h : GoodMap s.games) :
    GoodMap (createGame E s ws ds now).1.games := by
  simp only [createGame]
  exact goodMap_setG h (Or.inl (by simp))

theorem goodMap_joinGame {σ : Type} (E : Engine σ) (s : SState σ) (ws : Conn)
    (gid : String) (h : GoodMap s.games) :
    GoodMap (joinGame E s ws gid).1.games := by
  unfold joinGame
  cases hg : s.games gid with
  | none => exact h
  | some game =>
    by_cases hb : game.players.b = none
    · simp only [hb, if_pos rfl]
      exact goodMap_setG h (Or.inr (by simp))
    · by_cases hw : game.players.w = none
      · simp only [hb, if_neg, hw, if_pos rfl, ite_true]
        simp only [hb, ite_false]
        exact goodMap_setG h (Or.inl (by simp))
      · simp only [hb, hw, ite_false]
        exact h

theorem goodMap_moveTurnPhase {σ : Type} (E : Engine σ) (s : SState σ) (ws : Conn)
    (gid : String) (game : Game σ) (col : Color) (f t p : Option String)
    (h : GoodMap s.games) (hgame : game.players.w ≠ none ∨ game.players.b ≠ none) :
    GoodMap (moveTurnPhase E s ws gid game col f t p).1.games := by
  unfold moveTurnPhase
  by_cases ht : col = E.turn game.chess
  · simp only [ht, if_pos rfl]
    cases hm : E.move game.chess { fromSq := f, toSq := t, promo := promoOrQ p } with
    | error e => exact h
    | ok r =>
      cases r with
      | none => exact h
      | some pr => exact goodMap_setG h hgame
  · simp only [if_neg ht]
    exact h

theorem goodMap_handleMove {σ : Type} (E : Engine σ) (s : SState σ) (ws : Conn)
    (gid : Option String) (f t p : Option String) (h : GoodMap s.games) :
    GoodMap (handleMove E s ws gid f t p).1.games := by
  unfold handleMove
  split
  · exact h
  · rename_i gid2
    split
    · exact h
    · rename_i game hg
      split
      · exact h
      · split
        · exact goodMap_moveTurnPhase E s ws gid2 game _ f t p h (h gid2 game hg)
        · exact h

theorem goodMap_cleanup {σ : Type} (s : SState σ) (c : Conn) (h : GoodMap s.games) :
    GoodMap (cleanupConnection s c).games := by
  simp only [cleanupConnection]
  split
  · exact h
  · split
    · exact h
    · split
      · split
        · exact goodMap_delG h
        · next he =>
          refine goodMap_setG h ?_
          rcases not_and_or.mp he with hw | hb
          · exact Or.inl hw
          · exact Or.inr hb
      · split
        · exact goodMap_delG h
        · next he =>
          refine goodMap_setG h ?_
          rcases not_and_or.mp he with hw | hb
          · exact Or.inl hw
          · exact Or.inr hb

theorem goodMap_handleMessage {σ : Type} (E : Engine σ) (s : SState σ) (ws : Conn)
    (m : InMsg) (ds : List (Fin 32)) (now : Nat) (r : SState σ × List Out)
    (h : GoodMap s.games) (hm : handleMessage E s ws m ds now = some r) :
    GoodMap r.1.games := by
  unfold handleMessage at hm
  cases m with
  | invalidJson =>
    cases Option.some.inj hm
    exact h
  | jnull => exact absurd hm (by simp)
  | jmsg ty gid f t p =>
    cases Option.some.inj hm
    by_cases hc : ty = "create_game"
    · simp only [hc, if_pos rfl]
      exact goodMap_createGame E s ws ds now h
    · simp only [if_neg hc]
      by_cases hj : ty = "join_game"
      · simp only [hj, if_pos rfl]
        cases gid with
        | none => exact h
        | some g =>
          by_cases hge : g = ""
          · simp only [hge, if_pos rfl]
            exact h
          · simp only [if_neg hge]
            exact goodMap_joinGame E s ws g h
      · simp only [if_neg hj]
        by_cases hm : ty = "make_move"
        · simp only [hm, if_pos rfl]
          exact goodMap_handleMove E s ws gid f t p h
        · simp only [if_neg hm]
          exact h

theorem goodMap_stepS {σ : Type} (E : Engine σ) (s : SState σ) (e : Event)
    (h : GoodMap s.games) : GoodMap (stepS E s e).games := by
  simp only [stepS]
  split
  · exact h
  · cases e with
    | connect c =>
      by_cases hl : s.live c = true ∨ (s.roles c).isSome = true
      · simp only [if_pos hl]; exact h
      · simp only [if_neg hl]; exact h
    | msg c m ds now =>
      by_cases hl : s.live c = true
      · simp only [if_pos hl]
        split
        · next r hr => exact goodMap_handleMessage E s c m ds now r h hr
        · exact h
      · simp only [if_neg hl]; exact h
    | close c =>
      by_cases hl : s.live c = true
      · simp only [if_pos hl]
        exact goodMap_cleanup _ c h
      · simp only [if_neg hl]; exact h

theorem goodMap_runFrom {σ : Type} (E : Engine σ) (es : List Event) :
    ∀ s : SState σ, GoodMap s.games → GoodMap (runFrom E s es).games := by
  induction es with
  | nil => intro s h; exact h
  | cons e es ih =>
    intro s h
    exact ih (stepS E s e) (goodMap_stepS E s e h)

theorem mem_safeSend {σ : Type} {s : SState σ} {w : Option Conn} {m : OutMsg}
    {o : Out} (h : o ∈ safeSend s w m) : ∃ c, w = some c ∧ o = Out.send c m := by
  cases w with
  | none => simp [safeSend] at h
  | some c =>
    refine ⟨c, rfl, ?_⟩
    simp only [safeSend] at h
    by_cases hl : s.live c = true
    · simp [hl] at h; exact h
    · simp [hl] at h

theorem sendsOnlyErrTo_append {ws : Conn} {l1 l2 : List Out}
    (h1 : sendsOnlyErrTo ws l1) (h2 : sendsOnlyErrTo ws l2) :
    sendsOnlyErrTo ws (l1 ++ l2) := by
  intro o ho
  rcases List.mem_append.mp ho with hm | hm
  · exact h1 o hm
  · exact h2 o hm

theorem sendsOnlyErrTo_safeSend_self {σ : Type} (s : SState σ) (ws : Conn)
    (m : OutMsg) : sendsOnlyErrTo ws (safeSend s (some ws) m) := by
  intro o ho
  rcases mem_safeSend ho with ⟨c, hc, rfl⟩
  have hcw : c = ws := by exact (Option.some.inj hc).symm
  subst hcw
  exact ⟨fun c2 m2 he => (Out.send.injEq _ _ _ _).mp he |>.1.symm ▸ rfl,
    fun c2 he => Out.noConfusion he⟩

theorem sendsOnlyErrTo_safeSend_nonerr {σ : Type} (s : SState σ) (ws : Conn)
    (w : Option Conn) (m : OutMsg) (hm : ∀ m2, m ≠ OutMsg.error m2) :
    sendsOnlyErrTo ws (safeSend s w m) := by
  intro o ho
  rcases mem_safeSend ho with ⟨c, hc, rfl⟩
  refine ⟨fun c2 m2 he => ?_, fun c2 he => Out.noConfusion he⟩
  have : m = OutMsg.error m2 := ((Out.send.injEq _ _ _ _).mp he).2
  exact absurd this (hm m2)

theorem sends_createGame {σ : Type} (E : Engine σ) (s : SState σ) (ws : Conn)
    (ds : List (Fin 32)) (now : Nat) :
    sendsOnlyErrTo ws (createGame E s ws ds now).2 := by
  simp only [createGame]
  exact sendsOnlyErrTo_safeSend_self _ ws _

theorem sends_joinGame {σ : Type} (E : Engine σ) (s : SState σ) (ws : Conn)
    (gid : String) : sendsOnlyErrTo ws (joinGame E s ws gid).2 := by
  simp only [joinGame]
  split
  · exact sendsOnlyErrTo_safeSend_self _ ws _
  · split
    · exact sendsOnlyErrTo_safeSend_self _ ws _
    · refine sendsOnlyErrTo_append (sendsOnlyErrTo_safeSend_self _ ws _) ?_
      exact sendsOnlyErrTo_safeSend_nonerr _ ws _ _ (fun m2 => OutMsg.noConfusion)

theorem sends_moveTurnPhase {σ : Type} (E : Engine σ) (s : SState σ) (ws : Conn)
    (gid : String) (game : Game σ) (col : Color) (f t p : Option String) :
    sendsOnlyErrTo ws (moveTurnPhase E s ws gid game col f t p).2 := by
  simp only [moveTurnPhase]
  split
  · split
    · exact sendsOnlyErrTo_safeSend_self _ ws _
    · exact sendsOnlyErrTo_safeSend_self _ ws _
    · refine sendsOnlyErrTo_append ?_ ?_ <;>
        exact sendsOnlyErrTo_safeSend_nonerr _ ws _ _ (fun m2 => OutMsg.noConfusion)
  · exact sendsOnlyErrTo_safeSend_self _ ws _

theorem sends_handleMove {σ : Type} (E : Engine σ) (s : SState σ) (ws : Conn)
    (gid : Option String) (f t p : Option String) :
    sendsOnlyErrTo ws (handleMove E s ws gid f t p).2 := by
  unfold handleMove
  split
  · exact sendsOnlyErrTo_safeSend_self _ ws _
  · split
    · exact sendsOnlyErrTo_safeSend_self _ ws _
    · split
      · exact sendsOnlyErrTo_safeSend_self _ ws _
      · split
        · exact sends_moveTurnPhase E s ws _ _ _ f t p
        · exact sendsOnlyErrTo_safeSend_self _ ws _

theorem sends_handleMessage {σ : Type} (E : Engine σ) (s : SState σ) (ws : Conn)
    (m : InMsg) (ds : List (Fin 32)) (now : Nat) (r : SState σ × List Out)
    (hm : handleMessage E s ws m ds now = some r) :
    sendsOnlyErrTo ws r.2 := by
  unfold handleMessage at hm
  cases m with
  | invalidJson =>
    cases Option.some.inj hm
    exact sendsOnlyErrTo_safeSend_self _ ws _
  | jnull => exact absurd hm (by simp)
  | jmsg ty gid f t p =>
    cases Option.some.inj hm
    split
    · exact sends_createGame E s ws ds now
    · split
      · split
        · exact sendsOnlyErrTo_safeSend_self _ ws _
        · split
          · exact sendsOnlyErrTo_safeSend_self _ ws _
          · exact sends_joinGame E s ws _
      · split
        · exact sends_handleMove E s ws _ _ _ _
        · exact sendsOnlyErrTo_safeSend_self _ ws _

theorem cleanup_roles {σ : Type} (s : SState σ) (c : Conn) :
    (cleanupConnection s c).roles = s.roles := by
  simp only [cleanupConnection]
  split
  · rfl
  · split
    · rfl
    · split <;> split <;> rfl

theorem cleanup_live {σ : Type} (s : SState σ) (c : Conn) :
    (cleanupConnection s c).live = s.live := by
  simp only [cleanupConnection]
  split
  · rfl
  · split
    · rfl
    · split <;> split <;> rfl

theorem setG_ne_none {σ : Type} {m : String → Option (Game σ)} {k k2 : String}
    {v : Game σ} (h : m k2 ≠ none) : setG m k v k2 ≠ none := by
  by_cases hk : k2 = k
  · subst hk; rw [setG_self]; exact Option.some_ne_none v
  · rw [setG_ne m v hk]; exact h

theorem frame_createGame {σ : Type} (E : Engine σ) (s : SState σ) (ws : Conn)
    (ds : List (Fin 32)) (now : Nat) (gid : String) (h : s.games gid ≠ none) :
    (createGame E s ws ds now).1.games gid ≠ none := by
  simp only [createGame]
  exact setG_ne_none h

theorem frame_joinGame {σ : Type} (E : Engine σ) (s : SState σ) (ws : Conn)
    (gid gid2 : String) (h : s.games gid2 ≠ none) :
    (joinGame E s ws gid).1.games gid2 ≠ none := by
  simp only [joinGame]
  split
  · exact h
  · split
    · exact h
    · exact setG_ne_none h

theorem frame_moveTurnPhase {σ : Type} (E : Engine σ) (s : SState σ) (ws : Conn)
    (gid : String) (game : Game σ) (col : Color) (f t p : Option String)
    (gid2 : String) (h : s.games gid2 ≠ none) :
    (moveTurnPhase E s ws gid game col f t p).1.games gid2 ≠ none := by
  simp only [moveTurnPhase]
  split
  · split
    · exact h
    · exact h
    · exact setG_ne_none h
  · exact h

theorem frame_handleMove {σ : Type} (E : Engine σ) (s : SState σ) (ws : Conn)
    (gid : Option String) (f t p : Option String) (gid2 : String)
    (h : s.games gid2 ≠ none) :
    (handleMove E s ws gid f t p).1.games gid2 ≠ none := by
  unfold handleMove
  split
  · exact h
  · split
    · exact h
    · split
      · exact h
      · split
        · exact frame_moveTurnPhase E s ws _ _ _ f t p gid2 h
        · exact h

theorem frame_handleMessage {σ : Type} (E : Engine σ) (s : SState σ) (ws : Conn)
    (m : InMsg) (ds : List (Fin 32)) (now : Nat) (r : SState σ × List Out)
    (gid2 : String) (h : s.games gid2 ≠ none)
    (hm : handleMessage E s ws m ds now = some r) :
    r.1.games gid2 ≠ none := by
  unfold handleMessage at hm
  cases m with
  | invalidJson =>
    cases Option.some.inj hm
    exact h
  | jnull => exact absurd hm (by simp)
  | jmsg ty gid f t p =>
    cases Option.some.inj hm
    split
    · exact frame_createGame E s ws ds now gid2 h
    · split
      · split
        · exact h
        · split
          · exact h
          · exact frame_joinGame E s ws _ gid2 h
      · split
        · exact frame_handleMove E s ws _ _ _ _ gid2 h
        · exact h

theorem roles_some_createGame {σ : Type} (E : Engine σ) (s : SState σ) (ws : Conn)
    (ds : List (Fin 32)) (now : Nat) (c : Conn) (r : Role) (h : s.roles c = some r) :
    ∃ r2, (createGame E s ws ds now).1.roles c = some r2 := by
  simp only [createGame, setRole]
  by_cases hc : c = ws
  · subst hc; simp
  · simp only [if_neg hc]
    exact ⟨r, h⟩

theorem roles_some_joinGame {σ : Type} (E : Engine σ) (s : SState σ) (ws : Conn)
    (gid : String) (c : Conn) (r : Role) (h : s.roles c = some r) :
    ∃ r2, (joinGame E s ws gid).1.roles c = some r2 := by
  simp only [joinGame]
  split
  · exact ⟨r, h⟩
  · split
    · exact ⟨r, h⟩
    · simp only [setRole]
      by_cases hc : c = ws
      · subst hc; simp
      · simp only [if_neg hc]
        exact ⟨r, h⟩

theorem roles_eq_moveTurnPhase {σ : Type} (E : Engine σ) (s : SState σ) (ws : Conn)
    (gid : String) (game : Game σ) (col : Color) (f t p : Option String) :
    (moveTurnPhase E s ws gid game col f t p).1.roles = s.roles := by
  simp only [moveTurnPhase]
  split
  · split <;> rfl
  · rfl

theorem roles_eq_handleMove {σ : Type} (E : Engine σ) (s : SState σ) (ws : Conn)
    (gid : Option String) (f t p : Option String) :
    (handleMove E s ws gid f t p).1.roles = s.roles := by
  unfold handleMove
  split
  · rfl
  · split
    · rfl
    · split
      · rfl
      · split
        · exact roles_eq_moveTurnPhase E s ws _ _ _ f t p
        · rfl

theorem roles_some_handleMessage {σ : Type} (E : Engine σ) (s : SState σ) (ws : Conn)
    (m : InMsg) (ds : List (Fin 32)) (now : Nat) (rr : SState σ × List Out)
    (c : Conn) (r : Role) (h : s.roles c = some r)
    (hm : handleMessage E s ws m ds now = some rr) :
    ∃ r2, rr.1.roles c = some r2 := by
  unfold handleMessage at hm
  cases m with
  | invalidJson =>
    cases Option.some.inj hm
    exact ⟨r, h⟩
  | jnull => exact absurd hm (by simp)
  | jmsg ty gid f t p =>
    cases Option.some.inj hm
    split
    · exact roles_some_createGame E s ws ds now c r h
    · split
      · split
        · exact ⟨r, h⟩
        · split
          · exact ⟨r, h⟩
          · exact roles_some_joinGame E s ws _ c r h
      · split
        · rw [roles_eq_handleMove]; exact ⟨r, h⟩
        · exact ⟨r, h⟩

theorem roles_some_stepS {σ : Type} (E : Engine σ) (s : SState σ) (e : Event)
    (c : Conn) (r : Role) (h : s.roles c = some r) :
    ∃ r2, (stepS E s e).roles c = some r2 := by
  cases e with
  | connect c2 =>
    simp only [stepS]
    split
    · exact ⟨r, h⟩
    · split
      · exact ⟨r, h⟩
      · exact ⟨r, h⟩
  | msg c2 m ds now =>
    simp only [stepS]
    split
    · exact ⟨r, h⟩
    · split
      · split
        · next rr hrr => exact roles_some_handleMessage E s c2 m ds now rr c r h hrr
        · exact ⟨r, h⟩
      · exact ⟨r, h⟩
  | close c2 =>
    simp only [stepS]
    split
    · exact ⟨r, h⟩
    · split
      · rw [cleanup_roles]; exact ⟨r, h⟩
      · exact ⟨r, h⟩

theorem cleanup_unbound {σ : Type} (s : SState σ) (c : Conn)
    (h : s.roles c = none) : cleanupConnection s c = s := by
  simp [cleanupConnection, h]

theorem cleanup_idem {σ : Type} (s : SState σ) (c : Conn) :
    cleanupConnection (cleanupConnection s c) c = cleanupConnection s c := by
  cases hr : s.roles c with
  | none =>
    have h1 : cleanupConnection s c = s := cleanup_unbound s c hr
    rw [h1, h1]
  | some role =>
    cases hg : s.games role.gameId with
    | none =>
      have h1 : cleanupConnection s c = s := by simp [cleanupConnection, hr, hg]
      rw [h1, h1]
    | some game =>
      by_cases h1 : slotGet game.players role.color = some c
      · by_cases he : (slotSet game.players role.color none).w = none ∧
            (slotSet game.players role.color none).b = none
        · have hA : cleanupConnection s c = { s with games := delG s.games role.gameId } := by
            simp [cleanupConnection, hr, hg, h1, he]
          rw [hA]
          simp [cleanupConnection, hr, delG_self]
        · have hA : cleanupConnection s c = { s with games := setG s.games role.gameId { game with players := slotSet game.players role.color none } } := by
            simp [cleanupConnection, hr, hg, h1, he]
          rw [hA]
          simp [cleanupConnection, hr, setG_self, slotGet_slotSet_self, he, setG_setG]
      · by_cases he : game.players.w = none ∧ game.players.b = none
        · have hA : cleanupConnection s c = { s with games := delG s.games role.gameId } := by
            simp [cleanupConnection, hr, hg, h1, he]
          rw [hA]
          simp [cleanupConnection, hr, delG_self]
        · have hA : cleanupConnection s c = { s with games := setG s.games role.gameId game } := by
            simp [cleanupConnection, hr, hg, h1, he]
          rw [hA]
          simp [cleanupConnection, hr, setG_self, h1, he, setG_setG]

theorem removed_only_by_close {σ : Type} (E : Engine σ) (s : SState σ) (e : Event)
    (gid : String) (g : Game σ) (h1 : s.games gid = some g)
    (h2 : (stepS E s e).games gid = none) : ∃ c, e = Event.close c := by
  cases e with
  | connect c2 =>
    exfalso
    simp only [stepS] at h2
    revert h2
    split
    · intro h2; rw [h1] at h2; cases h2
    · split
      · intro h2; rw [h1] at h2; cases h2
      · intro h2; rw [show ({ s with live := fun x => if x = c2 then true else s.live x } :
          SState σ).games = s.games from rfl, h1] at h2; cases h2
  | msg c2 m ds now =>
    exfalso
    simp only [stepS] at h2
    revert h2
    split
    · intro h2; rw [h1] at h2; cases h2
    · split
      · split
        · next rr hrr =>
          intro h2
          exact frame_handleMessage E s c2 m ds now rr gid
            (by rw [h1]; exact Option.some_ne_none g) hrr h2
        · intro h2; rw [show ({ s with crashed := true } : SState σ).games = s.games from rfl,
            h1] at h2; cases h2
      · intro h2; rw [h1] at h2; cases h2
  | close c2 => exact ⟨c2, rfl⟩

theorem cleanup_last_holder {σ : Type} (s : SState σ) (c : Conn) (gid : String)
    (col : Color) (g : Game σ)
    (h1 : s.roles c = some { gameId := gid, color := col })
    (h2 : s.games gid = some g)
    (h3 : slotGet g.players col = some c)
    (h4 : slotGet g.players (oppositeColor col) = none) :
    (cleanupConnection s c).games gid = none := by
  cases col with
  | w =>
    simp only [slotGet, oppositeColor] at h3 h4
    simp [cleanupConnection, h1, h2, h3, h4, slotGet, slotSet, delG_self]
  | b =>
    simp only [slotGet, oppositeColor] at h3 h4
    simp [cleanupConnection, h1, h2, h3, h4, slotGet, slotSet, delG_self]

theorem createGame_games_self {σ : Type} (E : Engine σ) (s : SState σ) (ws : Conn)
    (ds : List (Fin 32)) (now : Nat) :
    (createGame E s ws ds now).1.games (generateGameId ds) =
      some { chess := E.start, players := { w := some ws, b := none }, createdAt := now } := by
  simp [createGame, setG_self]

theorem createGame_roles_self {σ : Type} (E : Engine σ) (s : SState σ) (ws : Conn)
    (ds : List (Fin 32)) (now : Nat) :
    (createGame E s ws ds now).1.roles ws =
      some { gameId := generateGameId ds, color := Color.w } := by
  simp [createGame, setRole_self]

theorem createGame_games_other {σ : Type} (E : Engine σ) (s : SState σ) (ws : Conn)
    (ds : List (Fin 32)) (now : Nat) (gid2 : String) (h : gid2 ≠ generateGameId ds) :
    (createGame E s ws ds now).1.games gid2 = s.games gid2 := by
  simp [createGame, setG_ne _ _ h]

/-- Claim C1, counterexample: the source never re-rolls the generated id.
With the registry reached by trC1a already holding a session under the id
generated from the draws dsA, a createGame consuming the same draws
inserts over it: the id was present at the moment of insertion and the
stored session is silently replaced by one with a different seat holder. -/
theorem c1_create_overwrites_counterexample :
    (run E0 trC1a).games (generateGameId dsA) =
      some { chess := (), players := { w := some 5, b := none }, createdAt := 0 }
    ∧ (createGame E0 (run E0 trC1a) 7 dsA 1).1.games (generateGameId dsA) =
      some { chess := (), players := { w := some 7, b := none }, createdAt := 1 } := by
  exact ⟨by decide, by decide⟩

/-- Claim C1 (amended): createGame always constructs a session whose
first-mover seat holds the creating connection and whose second-mover
seat is empty, binds the creator to that seat, leaves every other id
untouched, and replies game_created to the creator; the insertion is
unconditional, so a generated id that is already present silently
overwrites the stored session rather than being re-rolled. -/
theorem c1_create_game_shape {σ : Type} (E : Engine σ) (s : SState σ) (ws : Conn)
    (ds : List (Fin 32)) (now : Nat) :
    (createGame E s ws ds now).1.games (generateGameId ds) =
      some { chess := E.start, players := { w := some ws, b := none }, createdAt := now }
    ∧ (createGame E s ws ds now).1.roles ws =
      some { gameId := generateGameId ds, color := Color.w }
    ∧ (∀ gid2, gid2 ≠ generateGameId ds →
        (createGame E s ws ds now).1.games gid2 = s.games gid2)
    ∧ (createGame E s ws ds now).2 =
        safeSend (createGame E s ws ds now).1 (some ws)
          (OutMsg.game_created (generateGameId ds) Color.w (E.fen E.start)) := by
  refine ⟨createGame_games_self E s ws ds now, createGame_roles_self E s ws ds now,
    fun gid2 h => createGame_games_other E s ws ds now gid2 h, rfl⟩

theorem c1_create_game_shape_witness :
    ("XXXXXX" ≠ generateGameId dsA) ∧
      (createGame E0 (initState Unit) 3 dsA 0).1.games "XXXXXX" = (initState Unit).games "XXXXXX" := by
  exact ⟨by decide, (c1_create_game_shape E0 (initState Unit) 3 dsA 0).2.2.1 "XXXXXX" (by decide)⟩

/-- Claim C2, counterexample: connection 0 creates a game and is bound to
the id generated from dsA; a second create_game by the same connection
rebinds it to the id generated from dsB, so the role binding is not set
at most once over the connection lifetime. -/
theorem c2_rebinding_counterexample :
    trC2 = trC2a ++ [Event.msg 0 createMsg dsB 1]
    ∧ (run E0 trC2a).roles 0 = some { gameId := "AAAAAA", color := Color.w }
    ∧ (run E0 trC2).roles 0 = some { gameId := "BBBBBB", color := Color.w } := by
  exact ⟨rfl, by decide, by decide⟩

/-- Claim C2 (amended): a role binding, once set, is never cleared by any
event, but it is not write-once: every successful createGame rebinds the
connection to the newly generated id and the first-mover seat, and every
successful joinGame rebinds it to the joined id and the assigned seat,
even if the connection already held a different binding. -/
theorem c2_binding_overwritten_never_cleared {σ : Type} (E : Engine σ) :
    (∀ (s : SState σ) (ws : Conn) (ds : List (Fin 32)) (now : Nat),
      (createGame E s ws ds now).1.roles ws =
        some { gameId := generateGameId ds, color := Color.w })
    ∧ (∀ (s : SState σ) (ws : Conn) (gid : String) (g : Game σ),
      s.games gid = some g → g.players.b = none →
      (joinGame E s ws gid).1.roles ws = some { gameId := gid, color := Color.b })
    ∧ (∀ (s : SState σ) (e : Event) (c : Conn) (r : Role),
      s.roles c = some r → ∃ r2, (stepS E s e).roles c = some r2) := by
  refine ⟨fun s ws ds now => createGame_roles_self E s ws ds now, ?_, ?_⟩
  · intro s ws gid g hg hb
    simp [joinGame, hg, hb, setRole_self]
  · intro s e c r h
    exact roles_some_stepS E s e c r h

theorem c2_binding_overwritten_never_cleared_witness :
    (run E0 trC2a).roles 0 = some { gameId := "AAAAAA", color := Color.w }
    ∧ ∃ r2, (stepS E0 (run E0 trC2a) (Event.msg 0 createMsg dsB 1)).roles 0 = some r2 := by
  exact ⟨by decide, (c2_binding_overwritten_never_cleared E0).2.2 (run E0 trC2a)
    (Event.msg 0 createMsg dsB 1) 0 { gameId := "AAAAAA", color := Color.w } (by decide)⟩

/-- Claim C3, counterexample: in trC3 connection 0 creates session AAAAAA
and connection 1 joins its b seat; connection 1 then creates session
BBBBBB, rebinding its role away from AAAAAA, and both connections close.
Both seats of AAAAAA have disconnected, yet the session is still stored
with the dead connection 1 in its b seat, and a late joinGame by a fresh
connection is seated at w instead of receiving the Game-not-found error. -/
theorem c3_stale_session_counterexample :
    (run E0 trC3).live 0 = false
    ∧ (run E0 trC3).live 1 = false
    ∧ (run E0 trC3).games "AAAAAA" =
        some { chess := (), players := { w := none, b := some 1 }, createdAt := 0 }
    ∧ (joinGame E0 (run E0 trC3) 9 "AAAAAA").1.roles 9 =
        some { gameId := "AAAAAA", color := Color.w } := by
  exact ⟨by decide, by decide, by decide, by decide⟩

/-- Claim C3 (amended): in every reachable state no stored session has
both seat slots empty; an id is removed from the registry only by a close
event; and a close-time cleanup for a connection whose binding still
names the session, whose seat slot still holds the connection, and whose
opposite seat is empty, deletes the session, so a lookup then fails.
Without those provisos the original claim fails: a seat holder that
rebound its role before closing leaves its old seat occupied forever, and
a colliding createGame can replace a stored session outright. -/
theorem c3_registry_lifecycle {σ : Type} (E : Engine σ) :
    (∀ (es : List Event) (gid : String) (g : Game σ),
      (run E es).games gid = some g → (g.players.w ≠ none ∨ g.players.b ≠ none))
    ∧ (∀ (s : SState σ) (e : Event) (gid : String) (g : Game σ),
      s.games gid = some g → (stepS E s e).games gid = none → ∃ c, e = Event.close c)
    ∧ (∀ (s : SState σ) (c : Conn) (gid : String) (col : Color) (g : Game σ),
      s.roles c = some { gameId := gid, color := col } → s.games gid = some g →
      slotGet g.players col = some c → slotGet g.players (oppositeColor col) = none →
      (cleanupConnection s c).games gid = none) := by
  refine ⟨?_, ?_, ?_⟩
  · intro es gid g h
    refine goodMap_runFrom E es (initState σ) ?_ gid g h
    intro gid2 g2 h2
    exact absurd h2 (by simp [initState])
  · intro s e gid g h1 h2
    exact removed_only_by_close E s e gid g h1 h2
  · intro s c gid col g h1 h2 h3 h4
    exact cleanup_last_holder s c gid col g h1 h2 h3 h4

theorem c3_registry_lifecycle_witness :
    (run E0 trC1a).games "AAAAAA" =
      some { chess := (), players := { w := some 5, b := none }, createdAt := 0 }
    ∧ (({ chess := (), players := { w := some 5, b := none }, createdAt := 0 } : Game Unit).players.w ≠ none
      ∨ ({ chess := (), players := { w := some 5, b := none }, createdAt := 0 } : Game Unit).players.b ≠ none) := by
  exact ⟨by decide, (c3_registry_lifecycle E0).1 trC1a "AAAAAA" _ (by decide)⟩

/-- Claim C4 (confirmed): joinGame on an existing session assigns the b
seat when it is empty, else the w seat when it is empty, else replies the
two-players error with the whole state unchanged; and the first joiner
after a creation is assigned the b seat, never w. -/
theorem c4_join_seat_policy {σ : Type} (E : Engine σ) (s : SState σ) (ws : Conn)
    (gid : String) (g : Game σ) (h : s.games gid = some g) :
    (g.players.b = none →
      (joinGame E s ws gid).1.games gid =
        some { g with players := { g.players with b := some ws } }
      ∧ (joinGame E s ws gid).1.roles ws = some { gameId := gid, color := Color.b })
    ∧ (g.players.b ≠ none → g.players.w = none →
      (joinGame E s ws gid).1.games gid =
        some { g with players := { g.players with w := some ws } }
      ∧ (joinGame E s ws gid).1.roles ws = some { gameId := gid, color := Color.w })
    ∧ (g.players.b ≠ none → g.players.w ≠ none →
      joinGame E s ws gid = (s, safeSend s (some ws) (OutMsg.error "Game already has two players")))
    ∧ (∀ (c0 : Conn) (ds : List (Fin 32)) (now : Nat),
      (joinGame E (createGame E s c0 ds now).1 ws (generateGameId ds)).1.roles ws =
        some { gameId := generateGameId ds, color := Color.b }) := by
  refine ⟨?_, ?_, ?_, ?_⟩
  · intro hb
    constructor
    · simp [joinGame, h, hb, setG_self]
    · simp [joinGame, h, hb, setRole_self]
  · intro hb hw
    constructor
    · simp [joinGame, h, hb, hw, setG_self]
    · simp [joinGame, h, hb, hw, setRole_self]
  · intro hb hw
    simp [joinGame, h, hb, hw]
  · intro c0 ds now
    simp [joinGame, createGame_games_self E s c0 ds now, setRole_self]

theorem c4_join_seat_policy_witness :
    sHalf.games "G" = some gHalf
    ∧ gHalf.players.b = none
    ∧ (joinGame E0 sHalf 2 "G").1.roles 2 = some { gameId := "G", color := Color.b } := by
  exact ⟨by decide, by decide,
    ((c4_join_seat_policy E0 sHalf 2 "G" gHalf (by decide)).1 (by decide)).2⟩

/-- Claim C5 (confirmed): a make_move on an existing session by a
connection bound to that session, whose seat differs from the engine
turn, is answered with the Not-your-turn error through the safeSend
guard, the state is returned unchanged, and no other send happens. -/
theorem c5_turn_enforcement {σ : Type} (E : Engine σ) (s : SState σ) (ws : Conn)
    (gid : String) (g : Game σ) (col : Color) (f t p : Option String)
    (h1 : s.games gid = some g)
    (h2 : s.roles ws = some { gameId := gid, color := col })
    (h3 : col ≠ E.turn g.chess) :
    handleMove E s ws (some gid) f t p =
      (s, safeSend s (some ws) (OutMsg.error "Not your turn")) := by
  simp [handleMove, h1, h2, moveTurnPhase, h3]

theorem c5_turn_enforcement_witness :
    sFull.games "G" = some gFull
    ∧ sFull.roles 0 = some { gameId := "G", color := Color.b }
    ∧ Color.b ≠ E0.turn gFull.chess
    ∧ handleMove E0 sFull 0 (some "G") none none none =
        (sFull, safeSend sFull (some 0) (OutMsg.error "Not your turn")) := by
  exact ⟨by decide, by decide, by decide,
    c5_turn_enforcement E0 sFull 0 "G" gFull Color.b none none none
      (by decide) (by decide) (by decide)⟩

/-- Claim C6 (confirmed): when the engine accepts the move, the stored
session keeps its seats and holds the engine successor state, nothing
else in the state changes, and the outputs are one identical move_made
payload carrying the post-move state sent through the safeSend guard to
the w slot and then to the b slot, so an empty or unwritable slot is
silently skipped. -/
theorem c6_move_broadcast {σ : Type} (E : Engine σ) (s : SState σ) (ws : Conn)
    (gid : String) (g : Game σ) (col : Color) (f t p : Option String)
    (mv : String) (c2 : σ)
    (h1 : s.games gid = some g)
    (h2 : s.roles ws = some { gameId := gid, color := col })
    (h3 : col = E.turn g.chess)
    (h4 : E.move g.chess { fromSq := f, toSq := t, promo := promoOrQ p } =
      Except.ok (some (mv, c2))) :
    (handleMove E s ws (some gid) f t p).1.games gid = some { g with chess := c2 }
    ∧ (handleMove E s ws (some gid) f t p).1.roles = s.roles
    ∧ (handleMove E s ws (some gid) f t p).1.live = s.live
    ∧ (∀ gid2, gid2 ≠ gid → (handleMove E s ws (some gid) f t p).1.games gid2 = s.games gid2)
    ∧ (handleMove E s ws (some gid) f t p).2 =
        safeSend s g.players.w
          (OutMsg.move_made gid (E.fen c2) mv (E.turn c2) (E.isGameOver c2)
            (E.isCheckmate c2) (E.isDraw c2))
        ++ safeSend s g.players.b
          (OutMsg.move_made gid (E.fen c2) mv (E.turn c2) (E.isGameOver c2)
            (E.isCheckmate c2) (E.isDraw c2)) := by
  refine ⟨?_, ?_, ?_, ?_, ?_⟩
  · simp [handleMove, h1, h2, moveTurnPhase, ← h3, h4, setG_self]
  · simp [handleMove, h1, h2, moveTurnPhase, ← h3, h4]
  · simp [handleMove, h1, h2, moveTurnPhase, ← h3, h4]
  · intro gid2 hne
    simp [handleMove, h1, h2, moveTurnPhase, ← h3, h4, setG_ne _ _ hne]
  · simp [handleMove, h1, h2, moveTurnPhase, ← h3, h4, safeSend]

theorem c6_move_broadcast_witness :
    sFull.games "G" = some gFull
    ∧ sFull.roles 3 = some { gameId := "G", color := Color.w }
    ∧ E0.move gFull.chess { fromSq := none, toSq := none, promo := promoOrQ none } =
        Except.ok (some ("m", ()))
    ∧ (handleMove E0 sFull 3 (some "G") none none none).2 =
        safeSend sFull gFull.players.w
          (OutMsg.move_made "G" (E0.fen ()) "m" (E0.turn ()) (E0.isGameOver ())
            (E0.isCheckmate ()) (E0.isDraw ()))
        ++ safeSend sFull gFull.players.b
          (OutMsg.move_made "G" (E0.fen ()) "m" (E0.turn ()) (E0.isGameOver ())
            (E0.isCheckmate ()) (E0.isDraw ())) := by
  exact ⟨by decide, by decide, by rfl,
    (c6_move_broadcast E0 sFull 3 "G" gFull Color.w none none none "m" ()
      (by decide) (by decide) (by decide) (by rfl)).2.2.2.2⟩

/-- Claim C7 (confirmed): when the engine returns no move the requester
is answered the Illegal-move error, and when the engine throws the
requester is answered the Move-error error; in both cases the state is
returned unchanged and no other send happens. -/
theorem c7_move_rejection {σ : Type} (E : Engine σ) (s : SState σ) (ws : Conn)
    (gid : String) (g : Game σ) (col : Color) (f t p : Option String)
    (h1 : s.games gid = some g)
    (h2 : s.roles ws = some { gameId := gid, color := col })
    (h3 : col = E.turn g.chess) :
    (E.move g.chess { fromSq := f, toSq := t, promo := promoOrQ p } = Except.ok none →
      handleMove E s ws (some gid) f t p =
        (s, safeSend s (some ws) (OutMsg.error "Illegal move")))
    ∧ (E.move g.chess { fromSq := f, toSq := t, promo := promoOrQ p } = Except.error () →
      handleMove E s ws (some gid) f t p =
        (s, safeSend s (some ws) (OutMsg.error "Move error"))) := by
  constructor
  · intro h4
    simp [handleMove, h1, h2, moveTurnPhase, ← h3, h4]
  · intro h4
    simp [handleMove, h1, h2, moveTurnPhase, ← h3, h4]

theorem c7_move_rejection_witness :
    E0.move gFull.chess { fromSq := some "i", toSq := none, promo := promoOrQ none } = Except.ok none
    ∧ E0.move gFull.chess { fromSq := some "e", toSq := none, promo := promoOrQ none } = Except.error ()
    ∧ handleMove E0 sFull 3 (some "G") (some "i") none none =
        (sFull, safeSend sFull (some 3) (OutMsg.error "Illegal move"))
    ∧ handleMove E0 sFull 3 (some "G") (some "e") none none =
        (sFull, safeSend sFull (some 3) (OutMsg.error "Move error")) := by
  exact ⟨by rfl, by rfl,
    (c7_move_rejection E0 sFull 3 "G" gFull Color.w (some "i") none none
      (by decide) (by decide) (by decide)).1 (by rfl),
    (c7_move_rejection E0 sFull 3 "G" gFull Color.w (some "e") none none
      (by decide) (by decide) (by decide)).2 (by rfl)⟩

/-- Claim C8 (code_bug): the claim is the evident intent, but the code
fails it on one decodable frame.  The message listener wraps only
JSON.parse in try/catch; the four-character frame null parses
successfully to the JSON literal null, and the destructuring of the type
field at the line const type of msg then throws a TypeError outside the
try/catch, so no error reply is produced and the uncaught exception
kills the process, closing every connection.  The theorem evaluates the
code at that failing input: the dispatcher yields no reply at all (none,
against some reply for every other frame, such as the guarded
Invalid-JSON error shown alongside), and the event leaves the process
crashed with the very state it had. -/
theorem c8_null_frame_crash {σ : Type} (E : Engine σ) (s : SState σ) (ws : Conn)
    (ds : List (Fin 32)) (now : Nat) :
    handleMessage E s ws InMsg.jnull ds now = none
    ∧ (s.crashed = false → s.live ws = true →
        stepS E s (Event.msg ws InMsg.jnull ds now) = { s with crashed := true })
    ∧ handleMessage E s ws InMsg.invalidJson ds now =
        some (s, safeSend s (some ws) (OutMsg.error "Invalid JSON")) := by
  refine ⟨rfl, ?_, rfl⟩
  intro hc hl
  simp [stepS, hc, hl, handleMessage]

theorem c8_null_frame_crash_witness :
    sFull.crashed = false
    ∧ sFull.live 0 = true
    ∧ stepS E0 sFull (Event.msg 0 InMsg.jnull [] 0) = { sFull with crashed := true } := by
  exact ⟨rfl, rfl, (c8_null_frame_crash E0 sFull 0 [] 0).2.1 rfl rfl⟩

/-- Claim C9 (confirmed): close-event cleanup for a connection that never
acquired a role binding changes neither the registry nor any session, and
cleanup is idempotent: running it a second time for the same connection
on the already cleaned state reproduces that state exactly, with no
output of any kind since cleanup emits none. -/
theorem c9_cleanup_idempotent {σ : Type} (E : Engine σ) (s : SState σ) (c : Conn) :
    (s.roles c = none → cleanupConnection s c = s)
    ∧ (s.roles c = none → (stepS E s (Event.close c)).games = s.games)
    ∧ cleanupConnection (cleanupConnection s c) c = cleanupConnection s c := by
  refine ⟨fun h => cleanup_unbound s c h, ?_, cleanup_idem s c⟩
  intro h
  simp only [stepS]
  split
  · rfl
  · split
    · rw [cleanup_unbound _ _ (show (({ s with live := fun x => if x = c then false else s.live x } : SState σ)).roles c = none from h)]
    · rfl

theorem c9_cleanup_idempotent_witness :
    sHalf.roles 4 = none
    ∧ cleanupConnection sHalf 4 = sHalf
    ∧ cleanupConnection (cleanupConnection sFull 0) 0 = cleanupConnection sFull 0 := by
  exact ⟨rfl, (c9_cleanup_idempotent E0 sHalf 4).1 rfl,
    (c9_cleanup_idempotent E0 sFull 0).2.2⟩

/-- Claim C10 (confirmed): the participant check of handleMove consults
only the requesting connection role binding, never the seat slots: on an
existing session, when no binding for this exact id is held the reply is
the not-part-of-this-game error with the state unchanged, and when such a
binding is held the handler proceeds to the turn phase for the bound
seat, in both cases irrespective of which connection the seat slots
currently hold. -/
theorem c10_move_auth_by_binding {σ : Type} (E : Engine σ) (s : SState σ) (ws : Conn)
    (gid : String) (g : Game σ) (f t p : Option String)
    (h : s.games gid = some g) :
    ((∀ col, s.roles ws ≠ some { gameId := gid, color := col }) →
      handleMove E s ws (some gid) f t p =
        (s, safeSend s (some ws) (OutMsg.error "You are not part of this game")))
    ∧ (∀ col, s.roles ws = some { gameId := gid, color := col } →
      handleMove E s ws (some gid) f t p = moveTurnPhase E s ws gid g col f t p) := by
  constructor
  · intro hno
    cases hr : s.roles ws with
    | none => simp [handleMove, h, hr]
    | some role =>
      have hne : role.gameId ≠ gid := by
        intro heq
        apply hno role.color
        rw [hr]
        cases role with
        | mk rg rc =>
          simp only at heq
          rw [heq]
      simp [handleMove, h, hr, hne]
  · intro col hcol
    simp [handleMove, h, hcol]

theorem c10_move_auth_by_binding_witness :
    sFull.games "G" = some gFull
    ∧ gFull.players.w = some 2
    ∧ sFull.roles 2 = some { gameId := "H", color := Color.w }
    ∧ handleMove E0 sFull 2 (some "G") none none none =
        (sFull, safeSend sFull (some 2) (OutMsg.error "You are not part of this game"))
    ∧ sFull.roles 3 = some { gameId := "G", color := Color.w }
    ∧ handleMove E0 sFull 3 (some "G") none none none =
        moveTurnPhase E0 sFull 3 "G" gFull Color.w none none none := by
  exact ⟨by decide, by decide, by decide,
    (c10_move_auth_by_binding E0 sFull 2 "G" gFull none none none (by decide)).1 (by decide),
    by decide,
    (c10_move_auth_by_binding E0 sFull 3 "G" gFull none none none (by decide)).2 Color.w (by decide)⟩
